import Mathlib

/-!
# YouTube feed plugin: WebSub client, feed disabling and quota

A shallow embedding of `youtube/youtube.go`.

* Go strings are Lean strings, Go `int` is `Int`, a Go `error` that may be
  `nil` is an `Option GoError`.
* The process-wide singletons of the source are explicit arguments: the
  configuration (`common.ConfHost`, `confWebsubVerifytoken`) is a `Config`,
  the HTTP transport behind `http.PostForm` is a function from the request to
  a transport error or a response, the logger and the list of requests put on
  the wire are fields of a `World` that every operation threads through, and
  the table behind `common.GORM` is a `DB`.
-/

namespace Youtube

/-! ## Constants and cache keys -/

def RedisChannelsLockKey : String := "youtube_subbed_channel_lock"

def RedisKeyWebSubChannels : String := "youtube_registered_websub_channels"

def GoogleWebsubHub : String := "https://pubsubhubbub.appspot.com/subscribe"

def KeyLastVidTime (channel : String) : String := "youtube_last_video_time:" ++ channel

def KeyLastVidID (channel : String) : String := "youtube_last_video_id:" ++ channel

/-! ## Ambient configuration, errors, HTTP and logging -/

/-- The two configuration options the WebSub client reads: the value of
`common.ConfHost.GetString()` and of `confWebsubVerifytoken.GetString()`. -/
structure Config where
  ConfHost : String
  confWebsubVerifytoken : String
  deriving DecidableEq, Repr

/-- A Go `error` value: either an error handed over by a collaborator (the
HTTP transport, the database) or one built by `fmt.Errorf`. -/
inductive GoError where
  | external (cause : String)
  | errorf (msg : String)
  deriving DecidableEq, Repr

/-- The method `Error()` of an error value. -/
def GoError.Error : GoError → String
  | .external cause => cause
  | .errorf msg => msg

/-- Go's `url.Values`, a `map[string][]string`, as the association list of the
map literal; the keys of a literal are pairwise distinct. -/
abbrev Values := List (String × List String)

/-- The keys present in the map. -/
def Values.keys (v : Values) : List String := v.map Prod.fst

/-- The map index `v[k]`: the slice stored under `k`, if the key is present. -/
def Values.index (v : Values) (k : String) : Option (List String) := v.lookup k

/-- The request `http.PostForm(url, data)` puts on the wire. -/
structure Request where
  method : String
  url : String
  contentType : String
  form : Values
  deriving DecidableEq, Repr

/-- The fields of `http.Response` the plugin reads. `Body` is the byte
sequence `io.ReadAll(resp.Body)` yields; the error `io.ReadAll` may return with
it is discarded by the source (`body, _ := ...`). -/
structure Response where
  StatusCode : Int
  Status : String
  Body : String
  deriving DecidableEq, Repr

/-- One entry written through the plugin logger. -/
structure LogEntry where
  level : String
  err : Option GoError
  field : Option (String × String)
  msg : String
  deriving DecidableEq, Repr

/-- The observable effects of the plugin on its surroundings: the HTTP
requests issued so far, oldest first, and the log. -/
structure World where
  posts : List Request
  logs : List LogEntry
  deriving DecidableEq, Repr

/-- The hub transport: what `http.PostForm` returns for a request. -/
abbrev Transport := Request → Except GoError Response

/-- The call `http.PostForm(url, data)`: one POST with a form body is issued
and the outcome of the transport is returned. -/
def PostForm (hub : Transport) (url : String) (data : Values) (w : World) :
    Except GoError Response × World :=
  let req : Request := ⟨"POST", url, "application/x-www-form-urlencoded", data⟩
  (hub req, { w with posts := w.posts ++ [req] })

/-- The verb `%d` of package `fmt` at a Go `int`: the decimal rendering. -/
def fmtD (n : Int) : String := toString n

/-- The substring relation on strings (`strings.Contains hay needle`). -/
def Contains (hay needle : String) : Prop := needle.data <:+: hay.data

instance (hay needle : String) : Decidable (Contains hay needle) := by
  unfold Contains; infer_instance

/-! ## The WebSub client -/

/-- The `url.Values` literal of `WebSubSubscribe`. -/
def subscribeValues (cfg : Config) (ytChannelID : String) : Values :=
  [ ("hub.callback", ["https://" ++ cfg.ConfHost ++ "/yt_new_upload/" ++ cfg.confWebsubVerifytoken]),
    ("hub.topic", ["https://www.youtube.com/xml/feeds/videos.xml?channel_id=" ++ ytChannelID]),
    ("hub.verify", ["sync"]),
    ("hub.mode", ["subscribe"]),
    ("hub.verify_token", [cfg.confWebsubVerifytoken]) ]

/-- The `url.Values` literal of `WebSubUnsubscribe`. -/
def unsubscribeValues (cfg : Config) (ytChannelID : String) : Values :=
  [ ("hub.callback", ["https://" ++ cfg.ConfHost ++ "/yt_new_upload/" ++ cfg.confWebsubVerifytoken]),
    ("hub.topic", ["https://www.youtube.com/xml/feeds/videos.xml?channel_id=" ++ ytChannelID]),
    ("hub.verify", ["sync"]),
    ("hub.mode", ["unsubscribe"]),
    ("hub.verify_token", [cfg.confWebsubVerifytoken]) ]

/-- The method `Plugin.WebSubSubscribe`. -/
def WebSubSubscribe (cfg : Config) (hub : Transport) (ytChannelID : String) (w : World) :
    Option GoError × World :=
  let values := subscribeValues cfg ytChannelID
  match PostForm hub GoogleWebsubHub values w with
  | (.error err, w1) =>
    (some err,
      { w1 with logs := w1.logs ++
          [⟨"error", some err, none,
            "Failed to subscribe to youtube channel with id " ++ ytChannelID⟩] })
  | (.ok resp, w1) =>
    if resp.StatusCode < 200 ∨ resp.StatusCode > 299 then
      let body := resp.Body
      (some (.errorf ("go bad status code: " ++ fmtD resp.StatusCode ++ " (" ++ resp.Status
          ++ ") " ++ body)), w1)
    else
      (none,
        { w1 with logs := w1.logs ++
            [⟨"info", none, none, "Websub: Subscribed to channel " ++ ytChannelID⟩] })

/-- The method `Plugin.WebSubUnsubscribe`. -/
def WebSubUnsubscribe (cfg : Config) (hub : Transport) (ytChannelID : String) (w : World) :
    Option GoError × World :=
  let values := unsubscribeValues cfg ytChannelID
  match PostForm hub GoogleWebsubHub values w with
  | (.error err, w1) => (some err, w1)
  | (.ok resp, w1) =>
    if resp.StatusCode < 200 ∨ resp.StatusCode > 299 then
      (some (.errorf ("go bad status code: " ++ fmtD resp.StatusCode ++ " (" ++ resp.Status
          ++ ")")), w1)
    else
      (none,
        { w1 with logs := w1.logs ++
            [⟨"info", none, none, "Websub: UnSubscribed to channel " ++ ytChannelID⟩] })

/-! ## Quota -/

def GuildMaxFeeds : Int := 50

def GuildMaxFeedsPremium : Int := 250

/-- The function `MaxFeedsForContext`; the lookup `premium.ContextPremium` of
the premium package is the argument `ContextPremium`. -/
def MaxFeedsForContext {Ctx : Type} (ContextPremium : Ctx → Bool) (ctx : Ctx) : Int :=
  if ContextPremium ctx then GuildMaxFeedsPremium else GuildMaxFeeds

/-! ## Subscription store and the disable-on-error policy -/

/-- Modelled from the spec: `common.SmallModel`, the model embedded in every
row, is declared in the common package; the spec documents of it the identity
of the row, an internal ID that is unique and assigned at creation. -/
structure SmallModel where
  ID : Nat
  deriving DecidableEq, Repr

/-- The struct `ChannelSubscription`, one row of the table
`youtube_channel_subscriptions`. A `*bool` is an `Option Bool`, `nil` being
`none`; `pq.Int64Array` is a list of integers. -/
structure ChannelSubscription extends SmallModel where
  GuildID : String
  ChannelID : String
  YoutubeChannelID : String
  YoutubeChannelName : String
  MentionEveryone : Bool
  MentionRoles : List Int
  PublishLivestream : Option Bool
  PublishShorts : Option Bool
  Enabled : Option Bool
  deriving DecidableEq, Repr

/-- The method `ChannelSubscription.TableName`. -/
def ChannelSubscription.TableName (_ : ChannelSubscription) : String :=
  "youtube_channel_subscriptions"

/-- Modelled from the spec: `mqueue.QueuedElement`, declared in the mqueue
package; `DisableFeed` reads of it the identifier of the destination channel,
which the spec compares with the column `channel_id` of the rows. -/
structure QueuedElement where
  ChannelID : String
  deriving DecidableEq, Repr

/-- The database behind `common.GORM`, reduced to the subscription table. -/
structure DB where
  subscriptions : List ChannelSubscription
  deriving DecidableEq, Repr

/-- The helper `common.BoolToPointer`. -/
def BoolToPointer (b : Bool) : Option Bool := some b

/-- The Go composite literal `ChannelSubscription{Enabled: enabled}`: every
field not named in the literal has the zero value of its type. -/
def ChannelSubscription.literalEnabled (enabled : Option Bool) : ChannelSubscription :=
  { ID := 0, GuildID := "", ChannelID := "", YoutubeChannelID := "", YoutubeChannelName := "",
    MentionEveryone := false, MentionRoles := [], PublishLivestream := none,
    PublishShorts := none, Enabled := enabled }

/-- What an ORM update from a struct writes into one row: the fields of `attrs`
that are not blank (zero number, empty string, `false`, empty slice, `nil`
pointer) overwrite the columns of the row, the blank ones leave them alone. -/
def assignNonBlank (attrs row : ChannelSubscription) : ChannelSubscription :=
  { ID := if attrs.ID = 0 then row.ID else attrs.ID
    GuildID := if attrs.GuildID = "" then row.GuildID else attrs.GuildID
    ChannelID := if attrs.ChannelID = "" then row.ChannelID else attrs.ChannelID
    YoutubeChannelID :=
      if attrs.YoutubeChannelID = "" then row.YoutubeChannelID else attrs.YoutubeChannelID
    YoutubeChannelName :=
      if attrs.YoutubeChannelName = "" then row.YoutubeChannelName else attrs.YoutubeChannelName
    MentionEveryone := if attrs.MentionEveryone = false then row.MentionEveryone else true
    MentionRoles := if attrs.MentionRoles = [] then row.MentionRoles else attrs.MentionRoles
    PublishLivestream :=
      match attrs.PublishLivestream with
      | none => row.PublishLivestream
      | some b => some b
    PublishShorts :=
      match attrs.PublishShorts with
      | none => row.PublishShorts
      | some b => some b
    Enabled :=
      match attrs.Enabled with
      | none => row.Enabled
      | some b => some b }

/-- The table of the database that goes by `name`; the subscription table is
the only one the plugin keeps there. -/
def DB.table (db : DB) (name : String) : Option (List ChannelSubscription) :=
  if name = "youtube_channel_subscriptions" then some db.subscriptions else none

/-- A query under construction on the ORM handle. `Value` is the model the
handle was given through `Model(...)`; it is `nil` on the bare handle
`common.GORM`. `channelID` is the argument of the condition
`channel_id = ?`. -/
structure Scope where
  Value : Option ChannelSubscription
  channelID : String
  deriving DecidableEq, Repr

/-- The call `common.GORM.Where("channel_id = ?", id)`: the condition is
recorded on the bare handle, which has no model. -/
def GORM.Where (id : String) : Scope := ⟨none, id⟩

/-- The table an update of the scope addresses: the `TableName` of its model,
and the empty name when the scope has no model. -/
def Scope.TableName (s : Scope) : String :=
  match s.Value with
  | none => ""
  | some model => model.TableName

/-- The error of the database for an `UPDATE` that names no table. -/
def noTableError : GoError := .external "pq: zero-length delimited identifier"

/-- The call `.Updates(attrs)` with its `.Error`: one SQL `UPDATE` of the table
of the scope. `fault` is a failure of the database that has nothing to do with
the statement (`some e`: the statement is not run and `e` is returned). A
statement that is run fails and writes nothing when the database has no table
of that name; otherwise every row whose `channel_id` equals the argument of
the condition is updated from `attrs`. -/
def Scope.Updates (s : Scope) (fault : Option GoError) (attrs : ChannelSubscription)
    (db : DB) : Option GoError × DB :=
  match fault with
  | some e => (some e, db)
  | none =>
    match db.table s.TableName with
    | none => (some noTableError, db)
    | some rows =>
      (none,
        { db with subscriptions :=
            rows.map fun row =>
              if row.ChannelID = s.channelID then assignNonBlank attrs row else row })

/-- The method `Plugin.DisableFeed`. The incoming `err` is overwritten by the
result of the update before it is read. The update is built on the bare handle
`common.GORM`, with neither `Model` nor `Table`. -/
def DisableFeed (fault : Option GoError) (elem : QueuedElement) (_err : GoError)
    (db : DB) (w : World) : DB × World :=
  match (GORM.Where elem.ChannelID).Updates fault
      (ChannelSubscription.literalEnabled (BoolToPointer false)) db with
  | (some err, db1) =>
    (db1, { w with logs := w.logs ++
      [⟨"error", some err, none, "failed removing non-existant channel"⟩] })
  | (none, db1) =>
    (db1, { w with logs := w.logs ++
      [⟨"info", none, some ("channel", elem.ChannelID),
        "Disabled youtube feed to nonexistant channel"⟩] })

/-! ## Requests of the two operations -/

/-- The request `WebSubSubscribe` hands to the transport. -/
def subscribeRequest (cfg : Config) (ytChannelID : String) : Request :=
  ⟨"POST", GoogleWebsubHub, "application/x-www-form-urlencoded",
    subscribeValues cfg ytChannelID⟩

/-- The request `WebSubUnsubscribe` hands to the transport. -/
def unsubscribeRequest (cfg : Config) (ytChannelID : String) : Request :=
  ⟨"POST", GoogleWebsubHub, "application/x-www-form-urlencoded",
    unsubscribeValues cfg ytChannelID⟩

/-! ## Sample data -/

/-- A transport that answers every request with the same response. -/
def constHub (resp : Response) : Transport := fun _ => .ok resp

/-- A transport that fails on every request with the same error. -/
def downHub (e : GoError) : Transport := fun _ => .error e

/-- A subscription row with the given ID, destination channel and `enabled`
column, the other columns fixed. -/
def sampleRow (id : Nat) (channelID : String) (enabled : Option Bool) : ChannelSubscription :=
  { ID := id, GuildID := "614909558585819162", ChannelID := channelID,
    YoutubeChannelID := "UCt-ERbX-2yA6cAqfdKOlUwQ", YoutubeChannelName := "Some channel",
    MentionEveryone := true, MentionRoles := [5, 7], PublishLivestream := some false,
    PublishShorts := none, Enabled := enabled }

/-- Three rows, two of them with destination channel `C1` and one with `C2`. -/
def sampleDB : DB :=
  ⟨[sampleRow 1 "C1" none, sampleRow 2 "C1" (some true), sampleRow 3 "C2" (some true)]⟩

/-! ## Shared lemmas -/

/-- A string that splits as `l ++ needle ++ r` contains `needle`. -/
theorem contains_of_data_eq {hay needle : String} (l r : List Char)
    (h : hay.data = l ++ needle.data ++ r) : Contains hay needle :=
  ⟨l, r, h.symm⟩

/-- The requests issued after `WebSubSubscribe` are those issued before it and
its own request, whatever the transport answers. -/
theorem WebSubSubscribe_posts (cfg : Config) (hub : Transport) (c : String) (w : World) :
    (WebSubSubscribe cfg hub c w).2.posts = w.posts ++ [subscribeRequest cfg c] := by
  unfold WebSubSubscribe PostForm
  simp only [subscribeRequest]
  cases hub _ with
  | error e => rfl
  | ok resp =>
    dsimp only
    split <;> rfl

/-- The requests issued after `WebSubUnsubscribe` are those issued before it
and its own request, whatever the transport answers. -/
theorem WebSubUnsubscribe_posts (cfg : Config) (hub : Transport) (c : String) (w : World) :
    (WebSubUnsubscribe cfg hub c w).2.posts = w.posts ++ [unsubscribeRequest cfg c] := by
  unfold WebSubUnsubscribe PostForm
  simp only [unsubscribeRequest]
  cases hub _ with
  | error e => rfl
  | ok resp =>
    dsimp only
    split <;> rfl

/-- A transport error is returned by `WebSubSubscribe` as it is. -/
theorem WebSubSubscribe_error (cfg : Config) (hub : Transport) (c : String) (w : World)
    (e : GoError) (h : hub (subscribeRequest cfg c) = .error e) :
    (WebSubSubscribe cfg hub c w).1 = some e := by
  unfold WebSubSubscribe PostForm
  simp only [subscribeRequest] at h
  simp only [h]

/-- A transport error is returned by `WebSubUnsubscribe` as it is. -/
theorem WebSubUnsubscribe_error (cfg : Config) (hub : Transport) (c : String) (w : World)
    (e : GoError) (h : hub (unsubscribeRequest cfg c) = .error e) :
    (WebSubUnsubscribe cfg hub c w).1 = some e := by
  unfold WebSubUnsubscribe PostForm
  simp only [unsubscribeRequest] at h
  simp only [h]

/-- The error `WebSubSubscribe` returns once the transport has delivered a
response. -/
theorem WebSubSubscribe_ok (cfg : Config) (hub : Transport) (c : String) (w : World)
    (resp : Response) (h : hub (subscribeRequest cfg c) = .ok resp) :
    (WebSubSubscribe cfg hub c w).1 =
      if resp.StatusCode < 200 ∨ resp.StatusCode > 299 then
        some (.errorf ("go bad status code: " ++ fmtD resp.StatusCode ++ " (" ++ resp.Status
          ++ ") " ++ resp.Body))
      else none := by
  unfold WebSubSubscribe PostForm
  simp only [subscribeRequest] at h
  simp only [h]
  split <;> rfl

/-- The error `WebSubUnsubscribe` returns once the transport has delivered a
response. -/
theorem WebSubUnsubscribe_ok (cfg : Config) (hub : Transport) (c : String) (w : World)
    (resp : Response) (h : hub (unsubscribeRequest cfg c) = .ok resp) :
    (WebSubUnsubscribe cfg hub c w).1 =
      if resp.StatusCode < 200 ∨ resp.StatusCode > 299 then
        some (.errorf ("go bad status code: " ++ fmtD resp.StatusCode ++ " (" ++ resp.Status
          ++ ")"))
      else none := by
  unfold WebSubUnsubscribe PostForm
  simp only [unsubscribeRequest] at h
  simp only [h]
  split <;> rfl

/-! ## The form body (C1, C9) -/

/-- C1: the form values built by `WebSubSubscribe` and by `WebSubUnsubscribe`,
which are the form of the one request each of them posts, have exactly the
five keys `hub.callback`, `hub.topic`, `hub.verify`, `hub.mode` and
`hub.verify_token`, each key once and each with a single value; `hub.verify`
is `sync`, `hub.mode` is `subscribe` for the first and `unsubscribe` for the
second, and `hub.topic` is the feed URL followed by the channel ID. -/
theorem websub_form_fields (cfg : Config) (hub : Transport) (c : String) (w : World) :
    ((WebSubSubscribe cfg hub c w).2.posts.map Request.form
        = w.posts.map Request.form ++ [subscribeValues cfg c]
      ∧ (WebSubUnsubscribe cfg hub c w).2.posts.map Request.form
        = w.posts.map Request.form ++ [unsubscribeValues cfg c])
    ∧ (∀ v ∈ [subscribeValues cfg c, unsubscribeValues cfg c],
        v.keys = ["hub.callback", "hub.topic", "hub.verify", "hub.mode", "hub.verify_token"]
        ∧ v.keys.Nodup
        ∧ (∀ p ∈ v, p.2.length = 1)
        ∧ v.index "hub.verify" = some ["sync"]
        ∧ v.index "hub.topic"
            = some ["https://www.youtube.com/xml/feeds/videos.xml?channel_id=" ++ c])
    ∧ (subscribeValues cfg c).index "hub.mode" = some ["subscribe"]
    ∧ (unsubscribeValues cfg c).index "hub.mode" = some ["unsubscribe"] := by
  refine ⟨⟨?_, ?_⟩, ?_, ?_, ?_⟩
  · rw [WebSubSubscribe_posts]; simp [subscribeRequest]
  · rw [WebSubUnsubscribe_posts]; simp [unsubscribeRequest]
  · intro v hv
    simp only [List.mem_cons, List.mem_singleton, List.not_mem_nil, or_false] at hv
    rcases hv with rfl | rfl
    · refine ⟨rfl, by simp [Values.keys, subscribeValues, unsubscribeValues], ?_, rfl, rfl⟩
      intro p hp
      simp only [subscribeValues, List.mem_cons, List.mem_singleton, List.not_mem_nil,
        or_false] at hp
      rcases hp with rfl | rfl | rfl | rfl | rfl <;> rfl
    · refine ⟨rfl, by simp [Values.keys, subscribeValues, unsubscribeValues], ?_, rfl, rfl⟩
      intro p hp
      simp only [unsubscribeValues, List.mem_cons, List.mem_singleton, List.not_mem_nil,
        or_false] at hp
      rcases hp with rfl | rfl | rfl | rfl | rfl <;> rfl
  · rfl
  · rfl

/-- C9: the one request each of `WebSubSubscribe` and `WebSubUnsubscribe`
posts carries the form in which `hub.callback` is
`https://<host>/yt_new_upload/<token>` and `hub.verify_token` is that same
token; the callback does not depend on the channel ID, and the two operations
send the same value under every key other than `hub.mode`. -/
theorem websub_callback_token (cfg : Config) (hub : Transport) (c : String) (w : World) :
    (∃ rs ru : Request,
      (WebSubSubscribe cfg hub c w).2.posts = w.posts ++ [rs]
      ∧ (WebSubUnsubscribe cfg hub c w).2.posts = w.posts ++ [ru]
      ∧ rs.form = subscribeValues cfg c
      ∧ ru.form = unsubscribeValues cfg c
      ∧ rs.form.index "hub.callback"
          = some ["https://" ++ cfg.ConfHost ++ "/yt_new_upload/" ++ cfg.confWebsubVerifytoken]
      ∧ ru.form.index "hub.callback"
          = some ["https://" ++ cfg.ConfHost ++ "/yt_new_upload/" ++ cfg.confWebsubVerifytoken]
      ∧ rs.form.index "hub.verify_token" = some [cfg.confWebsubVerifytoken]
      ∧ ru.form.index "hub.verify_token" = some [cfg.confWebsubVerifytoken]
      ∧ (∀ k : String, k ≠ "hub.mode" → rs.form.index k = ru.form.index k)
      ∧ (∀ (c2 : String) (hub2 : Transport) (w2 : World), ∃ rs2 ru2 : Request,
          (WebSubSubscribe cfg hub2 c2 w2).2.posts = w2.posts ++ [rs2]
          ∧ (WebSubUnsubscribe cfg hub2 c2 w2).2.posts = w2.posts ++ [ru2]
          ∧ rs2.form.index "hub.callback" = rs.form.index "hub.callback"
          ∧ ru2.form.index "hub.callback" = ru.form.index "hub.callback"))
    ∧ (subscribeValues cfg c).index "hub.callback"
        = some ["https://" ++ cfg.ConfHost ++ "/yt_new_upload/" ++ cfg.confWebsubVerifytoken]
    ∧ (unsubscribeValues cfg c).index "hub.callback"
        = some ["https://" ++ cfg.ConfHost ++ "/yt_new_upload/" ++ cfg.confWebsubVerifytoken]
    ∧ (subscribeValues cfg c).index "hub.verify_token" = some [cfg.confWebsubVerifytoken]
    ∧ (unsubscribeValues cfg c).index "hub.verify_token" = some [cfg.confWebsubVerifytoken]
    ∧ (∀ c2 : String,
        (subscribeValues cfg c2).index "hub.callback"
            = (subscribeValues cfg c).index "hub.callback"
        ∧ (unsubscribeValues cfg c2).index "hub.callback"
            = (unsubscribeValues cfg c).index "hub.callback")
    ∧ (∀ k : String, k ≠ "hub.mode" →
        (subscribeValues cfg c).index k = (unsubscribeValues cfg c).index k) := by
  have hkeys : ∀ k : String, k ≠ "hub.mode" →
      (subscribeValues cfg c).index k = (unsubscribeValues cfg c).index k := by
    intro k hk
    simp only [Values.index, subscribeValues, unsubscribeValues, List.lookup]
    by_cases h1 : k = "hub.callback"
    · subst h1; rfl
    by_cases h2 : k = "hub.topic"
    · subst h2; rfl
    by_cases h3 : k = "hub.verify"
    · subst h3; rfl
    by_cases h5 : k = "hub.verify_token"
    · subst h5; rfl
    have e1 : (k == "hub.callback") = false := by simpa using h1
    have e2 : (k == "hub.topic") = false := by simpa using h2
    have e3 : (k == "hub.verify") = false := by simpa using h3
    have e4 : (k == "hub.mode") = false := by simpa using hk
    have e5 : (k == "hub.verify_token") = false := by simpa using h5
    simp only [e1, e2, e3, e4, e5]
  refine ⟨⟨subscribeRequest cfg c, unsubscribeRequest cfg c,
      WebSubSubscribe_posts cfg hub c w, WebSubUnsubscribe_posts cfg hub c w,
      rfl, rfl, rfl, rfl, rfl, rfl, hkeys, ?_⟩,
    rfl, rfl, rfl, rfl, fun _ => ⟨rfl, rfl⟩, hkeys⟩
  intro c2 hub2 w2
  exact ⟨subscribeRequest cfg c2, unsubscribeRequest cfg c2,
    WebSubSubscribe_posts cfg hub2 c2 w2, WebSubUnsubscribe_posts cfg hub2 c2 w2, rfl, rfl⟩

/-- With host `example.org` and token `s3cret`, a subscribe and an unsubscribe
for `UCabc` each post one request, whose callback is
`https://example.org/yt_new_upload/s3cret`, whose token is `s3cret` and whose
topic is the same for both. -/
theorem websub_callback_token_witness :
    ∃ rs ru : Request,
      (WebSubSubscribe ⟨"example.org", "s3cret"⟩ (constHub ⟨204, "204 No Content", ""⟩) "UCabc"
          ⟨[], []⟩).2.posts = [rs]
      ∧ (WebSubUnsubscribe ⟨"example.org", "s3cret"⟩ (constHub ⟨204, "204 No Content", ""⟩)
          "UCabc" ⟨[], []⟩).2.posts = [ru]
      ∧ rs.form.index "hub.callback" = some ["https://example.org/yt_new_upload/s3cret"]
      ∧ ru.form.index "hub.callback" = some ["https://example.org/yt_new_upload/s3cret"]
      ∧ rs.form.index "hub.verify_token" = some ["s3cret"]
      ∧ ru.form.index "hub.verify_token" = some ["s3cret"]
      ∧ rs.form.index "hub.topic" = ru.form.index "hub.topic" := by
  obtain ⟨⟨rs, ru, h1, h2, _, _, h5, h6, h7, h8, h9, _⟩, _⟩ :=
    websub_callback_token ⟨"example.org", "s3cret"⟩ (constHub ⟨204, "204 No Content", ""⟩)
      "UCabc" ⟨[], []⟩
  exact ⟨rs, ru, h1, h2, h5, h6, h7, h8, h9 "hub.topic" (by decide)⟩

/-! ## Status codes and errors (C2, C3, C4, C5) -/

/-- C2: when the transport delivers a response with status code `s`,
`WebSubSubscribe` and `WebSubUnsubscribe` each return no error if and only if
`200 ≤ s ≤ 299`. -/
theorem websub_status_range (cfg : Config) (hub : Transport) (c : String) (w : World) :
    (∀ resp : Response, hub (subscribeRequest cfg c) = .ok resp →
      ((WebSubSubscribe cfg hub c w).1 = none
        ↔ 200 ≤ resp.StatusCode ∧ resp.StatusCode ≤ 299))
    ∧ (∀ resp : Response, hub (unsubscribeRequest cfg c) = .ok resp →
      ((WebSubUnsubscribe cfg hub c w).1 = none
        ↔ 200 ≤ resp.StatusCode ∧ resp.StatusCode ≤ 299)) := by
  constructor
  · intro resp h
    rw [WebSubSubscribe_ok cfg hub c w resp h]
    split
    · rename_i hbad
      exact ⟨fun h0 => (by cases h0), fun h1 => (by omega)⟩
    · rename_i hgood
      exact ⟨fun _ => (by omega), fun _ => rfl⟩
  · intro resp h
    rw [WebSubUnsubscribe_ok cfg hub c w resp h]
    split
    · rename_i hbad
      exact ⟨fun h0 => (by cases h0), fun h1 => (by omega)⟩
    · rename_i hgood
      exact ⟨fun _ => (by omega), fun _ => rfl⟩

/-- The status codes 204, 200 and 299 yield no error and 199, 300 and 404 yield
an error, for a subscribe and for an unsubscribe. -/
theorem websub_status_range_witness :
    (∀ s ∈ [(204 : Int), 200, 299],
      (WebSubSubscribe ⟨"example.org", "s3cret"⟩ (constHub ⟨s, "", "not found"⟩) "UCabc"
          ⟨[], []⟩).1 = none
      ∧ (WebSubUnsubscribe ⟨"example.org", "s3cret"⟩ (constHub ⟨s, "", "not found"⟩) "UCabc"
          ⟨[], []⟩).1 = none)
    ∧ (∀ s ∈ [(199 : Int), 300, 404],
      (WebSubSubscribe ⟨"example.org", "s3cret"⟩ (constHub ⟨s, "", "not found"⟩) "UCabc"
          ⟨[], []⟩).1 ≠ none
      ∧ (WebSubUnsubscribe ⟨"example.org", "s3cret"⟩ (constHub ⟨s, "", "not found"⟩) "UCabc"
          ⟨[], []⟩).1 ≠ none) := by
  have key := fun s : Int =>
    websub_status_range ⟨"example.org", "s3cret"⟩ (constHub ⟨s, "", "not found"⟩) "UCabc"
      ⟨[], []⟩
  constructor
  · intro s hs
    have hr : 200 ≤ s ∧ s ≤ 299 := by
      simp only [List.mem_cons, List.mem_singleton, List.not_mem_nil, or_false] at hs
      omega
    exact ⟨((key s).1 _ rfl).2 hr, ((key s).2 _ rfl).2 hr⟩
  · intro s hs
    have hr : ¬ (200 ≤ s ∧ s ≤ 299) := by
      simp only [List.mem_cons, List.mem_singleton, List.not_mem_nil, or_false] at hs
      omega
    exact ⟨fun h0 => hr (((key s).1 _ rfl).1 h0), fun h0 => hr (((key s).2 _ rfl).1 h0)⟩

/-- C3: when the hub answers `WebSubSubscribe` with a status code outside
`[200,299]`, the call returns an error whose message contains the decimal
rendering of the status code, the status text and the body text. -/
theorem subscribe_rejected_message (cfg : Config) (hub : Transport) (c : String) (w : World)
    (resp : Response) (h : hub (subscribeRequest cfg c) = .ok resp)
    (hbad : resp.StatusCode < 200 ∨ 299 < resp.StatusCode) :
    ∃ e : GoError, (WebSubSubscribe cfg hub c w).1 = some e
      ∧ Contains e.Error (fmtD resp.StatusCode)
      ∧ Contains e.Error resp.Status
      ∧ Contains e.Error resp.Body := by
  have hbad2 : resp.StatusCode < 200 ∨ resp.StatusCode > 299 := hbad
  refine ⟨_, by rw [WebSubSubscribe_ok cfg hub c w resp h, if_pos hbad2], ?_, ?_, ?_⟩
  · exact contains_of_data_eq "go bad status code: ".data
      (" (".data ++ resp.Status.data ++ ") ".data ++ resp.Body.data)
      (by simp [GoError.Error, String.data_append])
  · exact contains_of_data_eq ("go bad status code: ".data ++ (fmtD resp.StatusCode).data
        ++ " (".data) (") ".data ++ resp.Body.data)
      (by simp [GoError.Error, String.data_append])
  · exact contains_of_data_eq ("go bad status code: ".data ++ (fmtD resp.StatusCode).data
        ++ " (".data ++ resp.Status.data ++ ") ".data) []
      (by simp [GoError.Error, String.data_append])

/-- A subscribe answered with 404 and body `not found` fails with a message
containing `404`, `404 Not Found` and `not found`. -/
theorem subscribe_rejected_message_witness :
    ∃ e : GoError,
      (WebSubSubscribe ⟨"example.org", "s3cret"⟩ (constHub ⟨404, "404 Not Found", "not found"⟩)
        "UCabc" ⟨[], []⟩).1 = some e
      ∧ Contains e.Error "404"
      ∧ Contains e.Error "404 Not Found"
      ∧ Contains e.Error "not found" :=
  subscribe_rejected_message ⟨"example.org", "s3cret"⟩
    (constHub ⟨404, "404 Not Found", "not found"⟩) "UCabc" ⟨[], []⟩
    ⟨404, "404 Not Found", "not found"⟩ rfl (by decide)

/-- C4, the code at a rejected unsubscribe: answered with status 404, status
text `404 Not Found` and body `not found`, `WebSubUnsubscribe` returns the
error `go bad status code: 404 (404 Not Found)`, which does not contain the
body text, whereas `WebSubSubscribe` answered the same way returns an error
that does. -/
theorem unsubscribe_rejected_drops_body (cfg : Config) (c : String) (w : World) :
    (WebSubUnsubscribe cfg (constHub ⟨404, "404 Not Found", "not found"⟩) c w).1
        = some (.errorf "go bad status code: 404 (404 Not Found)")
    ∧ ¬ Contains (GoError.errorf "go bad status code: 404 (404 Not Found)").Error "not found"
    ∧ (WebSubSubscribe cfg (constHub ⟨404, "404 Not Found", "not found"⟩) c w).1
        = some (.errorf "go bad status code: 404 (404 Not Found) not found")
    ∧ Contains (GoError.errorf "go bad status code: 404 (404 Not Found) not found").Error
        "not found" := by
  refine ⟨?_, by decide, ?_, by decide⟩
  · rw [WebSubUnsubscribe_ok cfg _ c w ⟨404, "404 Not Found", "not found"⟩ rfl]
    rfl
  · rw [WebSubSubscribe_ok cfg _ c w ⟨404, "404 Not Found", "not found"⟩ rfl]
    rfl

/-- C5: whatever the transport answers, `WebSubSubscribe` and
`WebSubUnsubscribe` each add exactly one request to the requests issued, a
POST addressed to `https://pubsubhubbub.appspot.com/subscribe`; and when the
transport returns an error instead of a response, the call returns that very
error. -/
theorem websub_single_post (cfg : Config) (hub : Transport) (c : String) (w : World) :
    (WebSubSubscribe cfg hub c w).2.posts = w.posts ++ [subscribeRequest cfg c]
    ∧ (WebSubUnsubscribe cfg hub c w).2.posts = w.posts ++ [unsubscribeRequest cfg c]
    ∧ (subscribeRequest cfg c).method = "POST"
    ∧ (unsubscribeRequest cfg c).method = "POST"
    ∧ (subscribeRequest cfg c).url = "https://pubsubhubbub.appspot.com/subscribe"
    ∧ (unsubscribeRequest cfg c).url = "https://pubsubhubbub.appspot.com/subscribe"
    ∧ (∀ e : GoError, hub (subscribeRequest cfg c) = .error e →
        (WebSubSubscribe cfg hub c w).1 = some e)
    ∧ (∀ e : GoError, hub (unsubscribeRequest cfg c) = .error e →
        (WebSubUnsubscribe cfg hub c w).1 = some e) :=
  ⟨WebSubSubscribe_posts cfg hub c w, WebSubUnsubscribe_posts cfg hub c w, rfl, rfl, rfl, rfl,
    fun e h => WebSubSubscribe_error cfg hub c w e h,
    fun e h => WebSubUnsubscribe_error cfg hub c w e h⟩

/-- With the hub unreachable both operations return the error of the
transport, after one request. -/
theorem websub_single_post_witness :
    (WebSubSubscribe ⟨"example.org", "s3cret"⟩ (downHub (.external "dial tcp: timeout"))
        "UCabc" ⟨[], []⟩).1 = some (.external "dial tcp: timeout")
    ∧ (WebSubUnsubscribe ⟨"example.org", "s3cret"⟩ (downHub (.external "dial tcp: timeout"))
        "UCabc" ⟨[], []⟩).1 = some (.external "dial tcp: timeout")
    ∧ ((WebSubSubscribe ⟨"example.org", "s3cret"⟩ (downHub (.external "dial tcp: timeout"))
        "UCabc" ⟨[], []⟩).2.posts).length = 1 :=
  ⟨(websub_single_post ⟨"example.org", "s3cret"⟩ (downHub (.external "dial tcp: timeout"))
      "UCabc" ⟨[], []⟩).2.2.2.2.2.2.1 _ rfl,
    (websub_single_post ⟨"example.org", "s3cret"⟩ (downHub (.external "dial tcp: timeout"))
      "UCabc" ⟨[], []⟩).2.2.2.2.2.2.2 _ rfl,
    by rw [(websub_single_post ⟨"example.org", "s3cret"⟩
      (downHub (.external "dial tcp: timeout")) "UCabc" ⟨[], []⟩).1]; rfl⟩

/-! ## Quota (C6) -/

/-- C6: `MaxFeedsForContext` is 250 when the premium lookup of the context is
true and 50 when it is false; it is one of the two in every case and two
contexts with the same premium status get the same cap. -/
theorem MaxFeedsForContext_cap {Ctx : Type} (ContextPremium : Ctx → Bool) (ctx : Ctx) :
    (ContextPremium ctx = true → MaxFeedsForContext ContextPremium ctx = 250)
    ∧ (ContextPremium ctx = false → MaxFeedsForContext ContextPremium ctx = 50)
    ∧ (MaxFeedsForContext ContextPremium ctx = 50 ∨ MaxFeedsForContext ContextPremium ctx = 250)
    ∧ (∀ ctx2 : Ctx, ContextPremium ctx2 = ContextPremium ctx →
        MaxFeedsForContext ContextPremium ctx2 = MaxFeedsForContext ContextPremium ctx)
    ∧ GuildMaxFeeds = 50 ∧ GuildMaxFeedsPremium = 250 := by
  refine ⟨?_, ?_, ?_, ?_, rfl, rfl⟩
  · intro h; simp [MaxFeedsForContext, h, GuildMaxFeedsPremium]
  · intro h; simp [MaxFeedsForContext, h, GuildMaxFeeds]
  · cases h : ContextPremium ctx
    · left; simp [MaxFeedsForContext, h, GuildMaxFeeds]
    · right; simp [MaxFeedsForContext, h, GuildMaxFeedsPremium]
  · intro ctx2 h; simp [MaxFeedsForContext, h]

/-- With guild 7 the only premium guild, guild 7 gets 250 feeds and guilds 8
and 9 get 50. -/
theorem MaxFeedsForContext_cap_witness :
    MaxFeedsForContext (fun guild : Nat => decide (guild = 7)) 7 = 250
    ∧ MaxFeedsForContext (fun guild : Nat => decide (guild = 7)) 8 = 50
    ∧ MaxFeedsForContext (fun guild : Nat => decide (guild = 7)) 9
        = MaxFeedsForContext (fun guild : Nat => decide (guild = 7)) 8 :=
  ⟨(MaxFeedsForContext_cap (fun guild : Nat => decide (guild = 7)) 7).1 (by decide),
    (MaxFeedsForContext_cap (fun guild : Nat => decide (guild = 7)) 8).2.1 (by decide),
    (MaxFeedsForContext_cap (fun guild : Nat => decide (guild = 7)) 8).2.2.2.1 9 (by decide)⟩

/-! ## Cache keys (C10) -/

/-- String concatenation cancels on the left. -/
theorem append_left_cancel_string (p a b : String) (h : p ++ a = p ++ b) : a = b := by
  have hd := congrArg String.data h
  simp only [String.data_append, List.append_cancel_left_eq] at hd
  exact String.ext hd

/-- C10: `KeyLastVidTime` and `KeyLastVidID` are injective and their ranges are
disjoint: no channel string, empty strings and strings with a colon included,
gets a time key that is the ID key of a channel string. -/
theorem cache_keys_never_collide :
    Function.Injective KeyLastVidTime
    ∧ Function.Injective KeyLastVidID
    ∧ ∀ a b : String, KeyLastVidTime a ≠ KeyLastVidID b := by
  refine ⟨?_, ?_, ?_⟩
  · intro a b h
    exact append_left_cancel_string _ a b h
  · intro a b h
    exact append_left_cancel_string _ a b h
  · intro a b h
    have hd := congrArg String.data h
    simp only [KeyLastVidTime, KeyLastVidID, String.data_append] at hd
    simp only [List.cons_append, List.cons.injEq, true_and] at hd
    exact absurd hd.1 (by decide)

/-- The keys of the empty channel differ, and so do those of channels with a
colon chosen to line the two keys up. -/
theorem cache_keys_never_collide_witness :
    (KeyLastVidTime "UCabc" = KeyLastVidTime "UCabc" → "UCabc" = "UCabc")
    ∧ KeyLastVidTime "" ≠ KeyLastVidID ""
    ∧ KeyLastVidTime "a:b" ≠ KeyLastVidID "time:a:b" :=
  ⟨fun h => cache_keys_never_collide.1 h,
    cache_keys_never_collide.2.2 "" "",
    cache_keys_never_collide.2.2 "a:b" "time:a:b"⟩

/-! ## Disabling feeds (C7, C8) -/

/-- An update from the literal `ChannelSubscription{Enabled: &b}` writes the
column `enabled` and nothing else. -/
theorem assignNonBlank_literalEnabled (b : Bool) (row : ChannelSubscription) :
    assignNonBlank (ChannelSubscription.literalEnabled (some b)) row
      = { row with Enabled := some b } := by
  simp [assignNonBlank, ChannelSubscription.literalEnabled]

/-- The outcome of `DisableFeed`: the database is as it was and the failure of
the update is logged, the error being that of the database when there is one
and that of the statement without a table otherwise. -/
theorem DisableFeed_eq (fault : Option GoError) (elem : QueuedElement) (err : GoError)
    (db : DB) (w : World) :
    DisableFeed fault elem err db w
      = (db, { w with logs := w.logs ++
          [⟨"error", some (fault.getD noTableError), none,
            "failed removing non-existant channel"⟩] }) := by
  cases fault <;> rfl

/-- The table an update leaves when the scope has a model and the database
runs the statement. -/
theorem Updates_model_subscriptions (model : ChannelSubscription) (id : String) (b : Bool)
    (db : DB) :
    ((Scope.mk (some model) id).Updates none (ChannelSubscription.literalEnabled (some b))
        db).2.subscriptions
      = db.subscriptions.map fun row =>
          if row.ChannelID = id then { row with Enabled := some b } else row := by
  simp [Scope.Updates, Scope.TableName, ChannelSubscription.TableName, DB.table,
    assignNonBlank_literalEnabled]

/-- An update that fails leaves the database as it was. -/
theorem Updates_fault (s : Scope) (e : GoError) (attrs : ChannelSubscription) (db : DB) :
    (s.Updates (some e) attrs db).2 = db := rfl

/-- An update on a scope without a model leaves the database as it was. -/
theorem Updates_no_model (id : String) (fault : Option GoError) (attrs : ChannelSubscription)
    (db : DB) : ((Scope.mk none id).Updates fault attrs db).2 = db := by
  cases fault <;> rfl

/-- After an update that the database ran, another update of the same scope
from the same literal changes nothing. -/
theorem Updates_ok_twice (s : Scope) (fault : Option GoError) (b : Bool) (db : DB) :
    (s.Updates fault (ChannelSubscription.literalEnabled (some b))
        (s.Updates none (ChannelSubscription.literalEnabled (some b)) db).2).2
      = (s.Updates none (ChannelSubscription.literalEnabled (some b)) db).2 := by
  cases fault with
  | some e => rfl
  | none =>
    obtain ⟨value, id⟩ := s
    cases value with
    | none => rw [Updates_no_model, Updates_no_model]
    | some model =>
      have h : ∀ d : DB, ∀ l, d.subscriptions = l → d = ⟨l⟩ := by
        intro d l hl; cases d; simp_all
      rw [h _ _ (Updates_model_subscriptions model id b _),
        h _ _ (Updates_model_subscriptions model id b db)]
      simp only [List.map_map, DB.mk.injEq]
      apply List.map_congr_left
      intro row _
      simp only [Function.comp]
      by_cases hc : row.ChannelID = id
      · simp [hc]
      · simp [hc]

/-- C7, the code at the rows `C1`, `C1`, `C2`: `DisableFeed` builds its update
on the bare handle, so the statement names no table and fails; whatever the
destination channel and the delivery error, the table is left as it was and
the failure is logged. On the three rows and destination channel `C1` the two
`C1` rows keep their `enabled` column (absent, `true`): no row is disabled.
The same update on a scope that has the model sets `enabled` to `false` on the
two `C1` rows and leaves the `C2` row alone, the disabling the policy is meant
to perform. -/
theorem DisableFeed_writes_nothing (fault : Option GoError) (elem : QueuedElement)
    (err : GoError) (db : DB) (w : World) :
    (DisableFeed fault elem err db w).1 = db
    ∧ (DisableFeed fault elem err db w).2.logs
        = w.logs ++ [⟨"error", some (fault.getD noTableError), none,
            "failed removing non-existant channel"⟩]
    ∧ (DisableFeed none ⟨"C1"⟩ err sampleDB w).1.subscriptions
        = [sampleRow 1 "C1" none, sampleRow 2 "C1" (some true), sampleRow 3 "C2" (some true)]
    ∧ ((Scope.mk (some (ChannelSubscription.literalEnabled none)) "C1").Updates none
          (ChannelSubscription.literalEnabled (BoolToPointer false)) sampleDB).2.subscriptions
        = [sampleRow 1 "C1" (some false), sampleRow 2 "C1" (some false),
            sampleRow 3 "C2" (some true)] := by
  refine ⟨?_, ?_, ?_, ?_⟩
  · rw [DisableFeed_eq]
  · rw [DisableFeed_eq]
  · rw [DisableFeed_eq]; rfl
  · rw [BoolToPointer, Updates_model_subscriptions]; decide

/-- C8: `DisableFeed` is idempotent on the subscription table: applied twice
for the same destination channel, with the database answering both times the
same way, it leaves the table it leaves when applied once; and once it has
succeeded, a further application changes nothing, whether it succeeds or
fails. The same holds of the update itself on every scope, with or without a
model. -/
theorem DisableFeed_idempotent (fault fault2 : Option GoError) (elem : QueuedElement)
    (e1 e2 : GoError) (db : DB) (w1 w2 : World) :
    (DisableFeed fault elem e2 (DisableFeed fault elem e1 db w1).1 w2).1
        = (DisableFeed fault elem e1 db w1).1
    ∧ (DisableFeed fault2 elem e2 (DisableFeed none elem e1 db w1).1 w2).1
        = (DisableFeed none elem e1 db w1).1
    ∧ ∀ s : Scope,
        (s.Updates fault (ChannelSubscription.literalEnabled (BoolToPointer false))
            (s.Updates fault (ChannelSubscription.literalEnabled (BoolToPointer false)) db).2).2
          = (s.Updates fault (ChannelSubscription.literalEnabled (BoolToPointer false)) db).2
        ∧ (s.Updates fault2 (ChannelSubscription.literalEnabled (BoolToPointer false))
            (s.Updates none (ChannelSubscription.literalEnabled (BoolToPointer false)) db).2).2
          = (s.Updates none (ChannelSubscription.literalEnabled (BoolToPointer false)) db).2 := by
  refine ⟨?_, ?_, ?_⟩
  · simp only [DisableFeed_eq]
  · simp only [DisableFeed_eq]
  · intro s
    refine ⟨?_, Updates_ok_twice s fault2 false db⟩
    cases fault with
    | some e => rfl
    | none => exact Updates_ok_twice s none false db

end Youtube
